import Mathlib

/-!
Shallow embedding of the startup/investor matchmaking backend
(`main.py`, `schemas.py`): the heuristic matchmaking scorer behind
`POST /api/matchmaking` and the Google token-introspection handler behind
`POST /api/auth/google`.

Modelling conventions:
  * Python floats become `ℚ`; every numeric literal in the scorer
    (0.1, 0.2, 0.4, 0.15, 0.0, 1.0) is an exact decimal fraction.
  * Values that may be absent (`dict.get`, `Optional` fields, `os.getenv`)
    become `Option`.
  * Python truthiness tests (`if body.industry:`, `if body.stage and ...`,
    `if client_id and ...`) are modelled explicitly: `None`, the empty list
    and the empty string are falsy.
  * `list.sort(key=..., reverse=True)` is a stable sort with comparison
    "my key is ≥ the other key"; it is modelled with `List.mergeSort`,
    which is stable.
-/

namespace MatchBackend

/-- The stage enum of the `Startup` schema (`schemas.py`):
`Literal["idea","MVP","pre-seed","seed","series-a","series-b"]`. -/
def stageValues : List String :=
  ["idea", "MVP", "pre-seed", "seed", "series-a", "series-b"]

/-- A startup document as read back from the store by `get_documents("startup", {})`:
only the fields the matchmaking handler touches (`_id`, `industry`, `stage`).
Fields reached through `dict.get` may be absent, hence `Option`. -/
structure StartupDoc where
  idStr : String
  industry : List String
  stage : Option String
deriving Repr, DecidableEq

/-- An investor document as read back from the store by
`get_documents("investor", {})`: only the fields the matchmaking handler
touches (`_id`, `geography`, `ticket_min`, `ticket_max`). -/
structure InvestorDoc where
  idStr : String
  geography : Option String
  ticket_min : Option ℚ
  ticket_max : Option ℚ
deriving Repr, DecidableEq

/-- The request body of `POST /api/matchmaking` (`class MatchQuery` in
`main.py`): every field is `Optional` with default `None`. -/
structure MatchQuery where
  industry : Option (List String) := none
  stage : Option String := none
  geography : Option String := none
  ticket_min : Option ℚ := none
  ticket_max : Option ℚ := none
deriving Repr, DecidableEq

/-- A `Match` record (`schemas.py`), as built by the matchmaking handler. -/
structure MatchRec where
  a_id : String
  a_type : String
  b_id : String
  b_type : String
  score : ℚ
  rationale : String
deriving Repr, DecidableEq

/-- `len(set(si.get("industry", [])) & set(body.industry))`:
cardinality of the set intersection of the two tag lists. -/
def industryOverlap (si : StartupDoc) (ind : List String) : ℕ :=
  (si.industry.toFinset ∩ ind.toFinset).card

/-- The `# Industry overlap` addend of `score` (main.py lines 136-138):
`if body.industry: s += min(0.4, 0.1 * overlap)`.
`body.industry` is truthy iff it is a non-empty list. -/
def industryComponent (q : MatchQuery) (si : StartupDoc) : ℚ :=
  match q.industry with
  | some ind => if ind.isEmpty then 0 else min 0.4 (0.1 * (industryOverlap si ind : ℚ))
  | none => 0

/-- The `# Stage` addend of `score` (main.py lines 140-141):
`if body.stage and body.stage == si.get("stage"): s += 0.2`.
`body.stage` is truthy iff it is a non-empty string. -/
def stageComponent (q : MatchQuery) (si : StartupDoc) : ℚ :=
  match q.stage with
  | some st => if st ≠ "" ∧ si.stage = some st then 0.2 else 0
  | none => 0

/-- The `# Geography` addend of `score` (main.py lines 143-144):
`if body.geography and body.geography == inv.get("geography"): s += 0.1`. -/
def geoComponent (q : MatchQuery) (inv : InvestorDoc) : ℚ :=
  match q.geography with
  | some g => if g ≠ "" ∧ inv.geography = some g then 0.1 else 0
  | none => 0

/-- The ticket-floor addend of `score` (main.py lines 146-147):
`if body.ticket_min is not None and inv.get("ticket_min") is not None and
inv.get("ticket_min") <= body.ticket_min: s += 0.15`. -/
def ticketMinComponent (q : MatchQuery) (inv : InvestorDoc) : ℚ :=
  match q.ticket_min, inv.ticket_min with
  | some qm, some im => if im ≤ qm then 0.15 else 0
  | _, _ => 0

/-- The ticket-ceiling addend of `score` (main.py lines 148-149):
`if body.ticket_max is not None and inv.get("ticket_max") is not None and
inv.get("ticket_max") >= body.ticket_max: s += 0.15`. -/
def ticketMaxComponent (q : MatchQuery) (inv : InvestorDoc) : ℚ :=
  match q.ticket_max, inv.ticket_max with
  | some qm, some im => if qm ≤ im then 0.15 else 0
  | _, _ => 0

/-- The inner `score(si, inv)` function of `get_matches` (main.py lines
133-150): the sum of the five addends, then `max(0.0, min(1.0, s))`. -/
def score (q : MatchQuery) (si : StartupDoc) (inv : InvestorDoc) : ℚ :=
  max 0 (min 1 (industryComponent q si + stageComponent q si + geoComponent q inv +
    ticketMinComponent q inv + ticketMaxComponent q inv))

/-- Python `round(x, 2)` on our exact rationals: round `100 * x` to the
nearest integer, ties to even, then divide by 100. -/
def roundHalfEven (x : ℚ) : ℤ :=
  if Int.fract x < 1/2 then ⌊x⌋
  else if 1/2 < Int.fract x then ⌊x⌋ + 1
  else if ⌊x⌋ % 2 = 0 then ⌊x⌋ else ⌊x⌋ + 1

/-- `round(sc, 2)` as applied by the matchmaking handler (main.py line 159). -/
def round2 (x : ℚ) : ℚ := (roundHalfEven (100 * x) : ℚ) / 100

/-- The `Match(...)` record the handler appends for a surviving pair
(main.py lines 156-161). -/
def matchOf (q : MatchQuery) (s : StartupDoc) (i : InvestorDoc) : MatchRec :=
  { a_id := s.idStr, a_type := "startup",
    b_id := i.idStr, b_type := "investor",
    score := round2 (score q s i),
    rationale := "Heuristic overlap on filters" }

/-- The `results` list after the nested `for` loops (main.py lines 152-161):
for every (startup, investor) pair in cross-product enumeration order,
keep the pair iff `score(s, i) >= 0.2`, wrapping it as a `Match` record. -/
def rawMatches (q : MatchQuery) (startups : List StartupDoc)
    (investors : List InvestorDoc) : List MatchRec :=
  startups.flatMap fun s => investors.filterMap fun i =>
    if 0.2 ≤ score q s i then some (matchOf q s i) else none

/-- The comparison used by `results.sort(key=lambda m: m.score, reverse=True)`:
`a` may come before `b` iff `b.score ≤ a.score`. -/
def scoreGE (a b : MatchRec) : Bool := b.score ≤ a.score

/-- `results` after the in-place stable descending sort (main.py line 164). -/
def sortedMatches (q : MatchQuery) (startups : List StartupDoc)
    (investors : List InvestorDoc) : List MatchRec :=
  (rawMatches q startups investors).mergeSort scoreGE

/-- The `POST /api/matchmaking` handler body after the store reads
(main.py lines 127-165): build, sort, and return `results[:50]`. -/
def get_matches (q : MatchQuery) (startups : List StartupDoc)
    (investors : List InvestorDoc) : List MatchRec :=
  (sortedMatches q startups investors).take 50

/-! ## Google auth handler (`POST /api/auth/google`, main.py lines 200-237)

The handler calls the tokeninfo introspection endpoint and then branches on
the response status, the `aud` claim, and the configured `GOOGLE_CLIENT_ID`.
The outbound HTTP call itself is external; the embedding takes the
introspection response (status code and claims) as input. -/

/-- The claims of the introspection response body (`r.json()`), restricted to
the fields the handler reads; each is `info.get(...)`, hence `Option`. -/
structure TokenInfo where
  aud : Option String := none
  sub : Option String := none
  email : Option String := none
  email_verified : Option String := none
  name : Option String := none
  picture : Option String := none
  given_name : Option String := none
  family_name : Option String := none
deriving Repr, DecidableEq

/-- The "minimal profile payload" dict built on lines 214-222. -/
structure Profile where
  sub : Option String
  email : Option String
  email_verified : Option String
  name : Option String
  picture : Option String
  given_name : Option String
  family_name : Option String
deriving Repr, DecidableEq

/-- The profile extraction of lines 214-222. -/
def profileOf (info : TokenInfo) : Profile :=
  { sub := info.sub, email := info.email, email_verified := info.email_verified,
    name := info.name, picture := info.picture,
    given_name := info.given_name, family_name := info.family_name }

/-- What the handler sends back: an `HTTPException(status, detail)` or the
`{"ok": True, "profile": ...}` success payload. -/
inductive AuthResponse where
  | httpError (status : ℕ) (detail : String)
  | ok (profile : Profile)
deriving Repr, DecidableEq

/-- The observable outcome of one `auth_google` invocation: the HTTP response
plus whether an activity-log record was persisted (the `create_document`
call on lines 224-230, whose failure is swallowed by `except: pass`). -/
structure AuthOutcome where
  response : AuthResponse
  activityLogged : Bool
deriving Repr, DecidableEq

/-- `if client_id and aud != client_id`: `client_id` (from
`os.getenv("GOOGLE_CLIENT_ID")`) is truthy iff present and non-empty. -/
def clientIdTruthy : Option String → Bool
  | none => false
  | some s => s ≠ ""

/-- The `auth_google` handler body after the introspection call returns
(main.py lines 206-233), parameterised by the response status, the parsed
claims, the configured client id, and whether the activity-log write
succeeds (`logWriteOk = false` models `create_document` raising). -/
def auth_google (status : ℕ) (info : TokenInfo) (client_id : Option String)
    (logWriteOk : Bool) : AuthOutcome :=
  if status ≠ 200 then
    { response := .httpError 401 "Invalid Google token", activityLogged := false }
  else if clientIdTruthy client_id ∧ info.aud ≠ client_id then
    { response := .httpError 401 "Token audience mismatch", activityLogged := false }
  else
    -- the try/except around the log write swallows the failure either way
    { response := .ok (profileOf info), activityLogged := logWriteOk }

/-! ## Sample inputs (used by the witness theorems) -/

/-- Sample startup: the spec's worked example (industry fintech+ai, seed). -/
def sampleStartup : StartupDoc := ⟨"s1", ["fintech", "ai"], some "seed"⟩

/-- Sample investor. -/
def sampleInvestor : InvestorDoc := ⟨"i1", some "US", some 50000, some 1000000⟩

/-- Sample query: the spec's worked example (industry [fintech], stage seed). -/
def sampleQuery : MatchQuery :=
  { industry := some ["fintech"], stage := some "seed" }

/-- Sample introspection claims. -/
def sampleInfo : TokenInfo :=
  { aud := some "cid-1", sub := some "u1", email := some "u@example.com" }

/-! ## Helper lemmas -/

lemma scoreGE_trans (a b c : MatchRec) (hab : scoreGE a b) (hbc : scoreGE b c) :
    scoreGE a c := by
  simp only [scoreGE, decide_eq_true_eq] at *
  exact le_trans hbc hab

lemma scoreGE_total (a b : MatchRec) : scoreGE a b || scoreGE b a := by
  simp only [scoreGE, Bool.or_eq_true, decide_eq_true_eq]
  exact le_total b.score a.score

/-- Every record in the matchmaking output was built from some
(startup, investor) pair whose raw score survived the 0.2 threshold. -/
lemma mem_get_matches_elim (q : MatchQuery) (ss : List StartupDoc)
    (is : List InvestorDoc) (m : MatchRec) (hm : m ∈ get_matches q ss is) :
    ∃ s ∈ ss, ∃ i ∈ is, m = matchOf q s i ∧ 0.2 ≤ score q s i := by
  have hm1 : m ∈ sortedMatches q ss is := List.mem_of_mem_take hm
  have hm2 : m ∈ rawMatches q ss is :=
    (List.mergeSort_perm (rawMatches q ss is) scoreGE).mem_iff.mp hm1
  simp only [rawMatches, List.mem_flatMap, List.mem_filterMap] at hm2
  obtain ⟨s, hs, i, hi, hf⟩ := hm2
  refine ⟨s, hs, i, hi, ?_⟩
  by_cases h : (0.2 : ℚ) ≤ score q s i
  · rw [if_pos h] at hf
    exact ⟨(Option.some.inj hf).symm, h⟩
  · rw [if_neg h] at hf
    cases hf

lemma stage_value_ne_empty (st : String) (h : st ∈ stageValues) : st ≠ "" := by
  intro he
  subst he
  revert h
  decide

/-- Concrete evaluation: the sample pair's raw score is 0.3
(industry overlap 1 gives 0.1, stage match gives 0.2). -/
lemma sample_score_eval : score sampleQuery sampleStartup sampleInvestor = 0.3 := by
  have hov : industryOverlap sampleStartup ["fintech"] = 1 := by decide
  have h1 : industryComponent sampleQuery sampleStartup = 0.1 := by
    simp only [industryComponent, sampleQuery, hov]
    norm_num
  have h2 : stageComponent sampleQuery sampleStartup = 0.2 := by
    simp only [stageComponent, sampleQuery]
    rw [if_pos (⟨by decide, rfl⟩ : ("seed" ≠ "") ∧ sampleStartup.stage = some "seed")]
  have h3 : geoComponent sampleQuery sampleInvestor = 0 := rfl
  have h4 : ticketMinComponent sampleQuery sampleInvestor = 0 := rfl
  have h5 : ticketMaxComponent sampleQuery sampleInvestor = 0 := rfl
  simp only [score, h1, h2, h3, h4, h5]
  norm_num [min_def, max_def]

lemma sample_round2_eval : round2 (0.3 : ℚ) = 0.3 := by
  have h1 : ((100 : ℚ) * 0.3) = 30 := by norm_num
  have h2 : roundHalfEven 30 = 30 := by
    simp only [roundHalfEven]
    norm_num [Int.fract]
  simp only [round2, h1, h2]
  norm_num

/-- Concrete evaluation: on the sample singleton collections the handler
returns exactly the one sample match record. -/
lemma sample_matches_eval :
    get_matches sampleQuery [sampleStartup] [sampleInvestor] =
      [matchOf sampleQuery sampleStartup sampleInvestor] := by
  have hraw : rawMatches sampleQuery [sampleStartup] [sampleInvestor] =
      [matchOf sampleQuery sampleStartup sampleInvestor] := by
    simp only [rawMatches, List.flatMap_cons, List.flatMap_nil, List.filterMap_cons,
      List.filterMap_nil, sample_score_eval]
    norm_num
  simp [get_matches, sortedMatches, hraw, List.mergeSort]

/-! ## Claim theorems -/

/-- C1: for every preference query and every startup/investor pair, the
heuristic score lies in the closed interval [0, 1]. -/
theorem score_within_unit_interval (q : MatchQuery) (si : StartupDoc)
    (inv : InvestorDoc) : 0 ≤ score q si inv ∧ score q si inv ≤ 1 := by
  unfold score
  exact ⟨le_max_left 0 _, max_le (by norm_num) (min_le_left 1 _)⟩

/-- C2: every record in the matchmaking output comes from a pair whose
heuristic score is not below 0.2; pairs scoring below the threshold never
appear in the output. -/
theorem no_below_threshold_match_returned (q : MatchQuery) (ss : List StartupDoc)
    (is : List InvestorDoc) (m : MatchRec) (hm : m ∈ get_matches q ss is) :
    ∃ s ∈ ss, ∃ i ∈ is, m = matchOf q s i ∧ ¬ score q s i < 0.2 := by
  obtain ⟨s, hs, i, hi, heq, hsc⟩ := mem_get_matches_elim q ss is m hm
  exact ⟨s, hs, i, hi, heq, not_lt.mpr hsc⟩

/-- C2 witness: on the sample singleton collections the returned record is
produced by a pair scoring at least 0.2. -/
theorem no_below_threshold_match_returned_witness :
    ∃ s ∈ [sampleStartup], ∃ i ∈ [sampleInvestor],
      matchOf sampleQuery sampleStartup sampleInvestor = matchOf sampleQuery s i ∧
      ¬ score sampleQuery s i < 0.2 :=
  no_below_threshold_match_returned sampleQuery [sampleStartup] [sampleInvestor]
    (matchOf sampleQuery sampleStartup sampleInvestor)
    (by rw [sample_matches_eval]; exact List.mem_singleton.mpr rfl)

/-- C3: the matchmaking output has at most 50 records, is ordered by
non-increasing score, equals the 50-prefix of the stably sorted results,
and the sort is a stable permutation of the cross-product enumeration:
any two records in enumeration order whose scores allow it (in particular
ties) stay in that order after sorting. -/
theorem get_matches_capped_sorted_stable (q : MatchQuery) (ss : List StartupDoc)
    (is : List InvestorDoc) :
    (get_matches q ss is).length ≤ 50 ∧
    (get_matches q ss is).Pairwise (fun a b => b.score ≤ a.score) ∧
    get_matches q ss is = (sortedMatches q ss is).take 50 ∧
    List.Perm (sortedMatches q ss is) (rawMatches q ss is) ∧
    (∀ a b : MatchRec, b.score ≤ a.score →
      List.Sublist [a, b] (rawMatches q ss is) →
      List.Sublist [a, b] (sortedMatches q ss is)) := by
  refine ⟨List.length_take_le _ _, ?_, rfl, List.mergeSort_perm _ _, ?_⟩
  · have hs := List.sorted_mergeSort scoreGE_trans scoreGE_total (rawMatches q ss is)
    have hp : (sortedMatches q ss is).Pairwise fun a b => b.score ≤ a.score := by
      refine hs.imp ?_
      intro a b h
      simpa [scoreGE] using h
    exact hp.sublist (List.take_sublist _ _)
  · intro a b hab hsub
    exact List.pair_sublist_mergeSort scoreGE_trans scoreGE_total
      (by simpa [scoreGE] using hab) hsub

/-- C3 witness: the length bound instantiated on the sample collections. -/
theorem get_matches_capped_sorted_stable_witness :
    (get_matches sampleQuery [sampleStartup] [sampleInvestor]).length ≤ 50 :=
  (get_matches_capped_sorted_stable sampleQuery [sampleStartup] [sampleInvestor]).1

/-- C6: if either the startup collection or the investor collection is
empty, the matchmaking handler returns the empty list. -/
theorem get_matches_empty_of_empty_side (q : MatchQuery) (ss : List StartupDoc)
    (is : List InvestorDoc) (h : ss = [] ∨ is = []) :
    get_matches q ss is = [] := by
  have hraw : rawMatches q ss is = [] := by
    rcases h with h | h <;> subst h <;> simp [rawMatches]
  simp [get_matches, sortedMatches, hraw, List.mergeSort]

/-- C6 witness: empty startup collection against a sample investor. -/
theorem get_matches_empty_of_empty_side_witness :
    get_matches sampleQuery [] [sampleInvestor] = [] :=
  get_matches_empty_of_empty_side sampleQuery [] [sampleInvestor] (Or.inl rfl)

/-- C10: every record in the matchmaking output carries the raw heuristic
score of its generating pair rounded to two decimals, and the output is the
50-prefix of the stable sort whose comparison reads exactly that rounded
score field. -/
theorem returned_scores_rounded_and_sorted (q : MatchQuery) (ss : List StartupDoc)
    (is : List InvestorDoc) :
    (∀ m ∈ get_matches q ss is, ∃ s ∈ ss, ∃ i ∈ is,
      m.score = round2 (score q s i)) ∧
    get_matches q ss is =
      ((rawMatches q ss is).mergeSort fun a b => decide (b.score ≤ a.score)).take 50 := by
  refine ⟨?_, rfl⟩
  intro m hm
  obtain ⟨s, hs, i, hi, heq, hsc⟩ := mem_get_matches_elim q ss is m hm
  exact ⟨s, hs, i, hi, by rw [heq, matchOf]⟩

/-- C10 witness: the rounded-score property instantiated on the sample
collections and the record they produce. -/
theorem returned_scores_rounded_and_sorted_witness :
    ∃ s ∈ [sampleStartup], ∃ i ∈ [sampleInvestor],
      (matchOf sampleQuery sampleStartup sampleInvestor).score =
        round2 (score sampleQuery s i) :=
  (returned_scores_rounded_and_sorted sampleQuery [sampleStartup] [sampleInvestor]).1
    (matchOf sampleQuery sampleStartup sampleInvestor)
    (by rw [sample_matches_eval]; exact List.mem_singleton.mpr rfl)

/-- C4: with the preference industry list non-empty, the industry component
equals min(0.4, 0.1 × overlap); stepping the overlap from k to k+1 for
k ≤ 3 raises the component by exactly 0.1, and the component is capped at
0.4 for overlaps of 4 or more. -/
theorem industry_component_monotone (q : MatchQuery) (ind : List String)
    (si sj : StartupDoc) (k : ℕ)
    (hq : q.industry = some ind) (hne : ind ≠ [])
    (hk : industryOverlap si ind = k) (hk1 : industryOverlap sj ind = k + 1) :
    industryComponent q si = min 0.4 (0.1 * (k : ℚ)) ∧
    (k ≤ 3 → industryComponent q sj = industryComponent q si + 0.1) ∧
    (4 ≤ k → industryComponent q si = 0.4) := by
  have hne2 : ind.isEmpty = false := by simpa [List.isEmpty_iff] using hne
  have hsi : industryComponent q si = min 0.4 (0.1 * (k : ℚ)) := by
    simp only [industryComponent, hq]
    rw [if_neg (by simp [hne2]), hk]
  have hsj : industryComponent q sj = min 0.4 (0.1 * ((k : ℚ) + 1)) := by
    simp only [industryComponent, hq]
    rw [if_neg (by simp [hne2]), hk1]
    norm_num
  refine ⟨hsi, ?_, ?_⟩
  · intro hk3
    have hk3Q : (k : ℚ) ≤ 3 := by exact_mod_cast hk3
    rw [hsj, hsi, min_eq_right (by norm_num; linarith), min_eq_right (by norm_num; linarith)]
    ring
  · intro hk4
    have hk4Q : (4 : ℚ) ≤ (k : ℚ) := by exact_mod_cast hk4
    rw [hsi, min_eq_left (by norm_num; linarith)]

/-- Sample query for the industry-overlap claim: two desired tags. -/
def tagQuery : MatchQuery := { industry := some ["a", "b"] }

/-- Startup overlapping `tagQuery` on one tag. -/
def startupOneTag : StartupDoc := ⟨"s-one", ["a"], none⟩

/-- Startup overlapping `tagQuery` on two tags. -/
def startupTwoTags : StartupDoc := ⟨"s-two", ["a", "b"], none⟩

/-- C4 witness: overlap 1 versus overlap 2 under a two-tag preference. -/
theorem industry_component_monotone_witness :
    industryComponent tagQuery startupOneTag = min 0.4 (0.1 * ((1 : ℕ) : ℚ)) ∧
    (1 ≤ 3 → industryComponent tagQuery startupTwoTags =
      industryComponent tagQuery startupOneTag + 0.1) ∧
    (4 ≤ 1 → industryComponent tagQuery startupOneTag = 0.4) :=
  industry_component_monotone tagQuery ["a", "b"] startupOneTag startupTwoTags 1
    rfl (by decide) (by decide) (by decide)

/-- C5: for a schema-valid startup record (its stage is one of the declared
enum literals), the +0.2 stage component is awarded exactly when the
preference stage equals the startup stage, and is 0 otherwise. -/
theorem stage_component_exact_match (q : MatchQuery) (si : StartupDoc)
    (st : String) (hst : si.stage = some st) (hmem : st ∈ stageValues) :
    (stageComponent q si = 0.2 ↔ q.stage = si.stage) ∧
    (q.stage ≠ si.stage → stageComponent q si = 0) := by
  have hne := stage_value_ne_empty st hmem
  rcases hq : q.stage with _ | qs
  · refine ⟨⟨fun h0 => ?_, fun h => ?_⟩, fun _ => by simp [stageComponent, hq]⟩
    · simp only [stageComponent, hq] at h0
      norm_num at h0
    · rw [hst] at h
      cases h
  · by_cases hqs : qs = st
    · subst hqs
      have hcomp : stageComponent q si = 0.2 := by
        simp only [stageComponent, hq]
        rw [if_pos ⟨hne, hst⟩]
      refine ⟨?_, fun hneq => absurd hst.symm hneq⟩
      simp [hcomp, hst]
    · have hcomp : stageComponent q si = 0 := by
        simp only [stageComponent, hq]
        rw [if_neg]
        rintro ⟨-, h2⟩
        rw [hst] at h2
        exact hqs (Option.some.inj h2).symm
      refine ⟨⟨fun h0 => ?_, fun h => ?_⟩, fun _ => hcomp⟩
      · rw [hcomp] at h0
        norm_num at h0
      · rw [hst] at h
        exact absurd (Option.some.inj h) hqs

/-- C5 witness: the sample query's stage "seed" matches the sample
startup's stage, so the component is 0.2. -/
theorem stage_component_exact_match_witness :
    (stageComponent sampleQuery sampleStartup = 0.2 ↔
      sampleQuery.stage = sampleStartup.stage) ∧
    (sampleQuery.stage ≠ sampleStartup.stage →
      stageComponent sampleQuery sampleStartup = 0) :=
  stage_component_exact_match sampleQuery sampleStartup "seed" rfl (by decide)

/-- C7: a non-200 introspection status, or a configured (non-empty) client
id that differs from the `aud` claim, makes the handler answer with an HTTP
401 authentication failure, never a success payload with a profile. -/
theorem auth_google_failure_cases (status : ℕ) (info : TokenInfo)
    (cid : Option String) (logOk : Bool)
    (h : status ≠ 200 ∨ ∃ c, cid = some c ∧ c ≠ "" ∧ info.aud ≠ some c) :
    ∃ d, (auth_google status info cid logOk).response = .httpError 401 d ∧
      ∀ p, (auth_google status info cid logOk).response ≠ .ok p := by
  rcases h with h | ⟨c, hc, hcne, haud⟩
  · exact ⟨"Invalid Google token", by simp [auth_google, h], by simp [auth_google, h]⟩
  · subst hc
    by_cases hs : status = 200
    · have hcond : clientIdTruthy (some c) ∧ info.aud ≠ some c :=
        ⟨by simp [clientIdTruthy, hcne], haud⟩
      exact ⟨"Token audience mismatch", by simp [auth_google, hs, hcond],
        by simp [auth_google, hs, hcond]⟩
    · exact ⟨"Invalid Google token", by simp [auth_google, hs], by simp [auth_google, hs]⟩

/-- C7 witness: a 200 response whose `aud` differs from the configured
client id is rejected with a 401. -/
theorem auth_google_failure_cases_witness :
    ∃ d, (auth_google 200 sampleInfo (some "cid-other") true).response =
        .httpError 401 d ∧
      ∀ p, (auth_google 200 sampleInfo (some "cid-other") true).response ≠ .ok p :=
  auth_google_failure_cases 200 sampleInfo (some "cid-other") true
    (Or.inr ⟨"cid-other", rfl, by decide, by decide⟩)

/-- C8: when verification succeeds (status 200 and the audience check does
not fire), a failing activity-log write is swallowed: the handler still
answers with the success payload carrying the profile, identical to the
response when the log write succeeds. -/
theorem auth_google_log_failure_swallowed (status : ℕ) (info : TokenInfo)
    (cid : Option String) (hs : status = 200)
    (hnomis : ¬ (clientIdTruthy cid ∧ info.aud ≠ cid)) :
    (auth_google status info cid false).response = .ok (profileOf info) ∧
    (auth_google status info cid false).response =
      (auth_google status info cid true).response := by
  subst hs
  constructor <;> simp [auth_google, hnomis]

/-- C8 witness: matching audience, log write failing. -/
theorem auth_google_log_failure_swallowed_witness :
    (auth_google 200 sampleInfo (some "cid-1") false).response =
      .ok (profileOf sampleInfo) ∧
    (auth_google 200 sampleInfo (some "cid-1") false).response =
      (auth_google 200 sampleInfo (some "cid-1") true).response :=
  auth_google_log_failure_swallowed 200 sampleInfo (some "cid-1") rfl
    (by rintro ⟨-, h⟩; exact h rfl)

/-- C9: with GOOGLE_CLIENT_ID unset or empty, the audience comparison is
skipped: every 200 introspection response yields the success payload with
the profile, whatever the `aud` claim is. -/
theorem auth_google_skips_audience_without_client_id (status : ℕ)
    (info : TokenInfo) (cid : Option String) (logOk : Bool)
    (hs : status = 200) (hcid : cid = none ∨ cid = some "") :
    (auth_google status info cid logOk).response = .ok (profileOf info) := by
  subst hs
  rcases hcid with h | h <;> subst h <;> simp [auth_google, clientIdTruthy]

/-- C9 witness: unset client id, arbitrary `aud` claim, status 200. -/
theorem auth_google_skips_audience_without_client_id_witness :
    (auth_google 200 sampleInfo none true).response = .ok (profileOf sampleInfo) :=
  auth_google_skips_audience_without_client_id 200 sampleInfo none true rfl (Or.inl rfl)

end MatchBackend
